import Mathlib

/-!
Verification of the QuadSwarm onboard control software core: the
flight-controller driver (`fc_handler.py`, class `FlightControllerInterface`)
and the process-lifecycle supervisor (`bootloader.py`, class `ProcessManager`).

The Python source is shallowly embedded: pure computations become Lean
functions, the mutable driver/supervisor state becomes explicit state
passing, and observable side effects (pipe sends, hardware frames, reboots,
sleeps) are collected as event traces.  Python values on which `int()` may
fail (NaN, infinities, non-numeric objects) are modelled by `Option Int`:
`some n` is a value whose conversion yields the integer `n`, `none` is a
value whose conversion raises.
-/

namespace QuadSwarm

/-- A raw Python command value as it arrives from shared state: `some n` if
`int()` on it succeeds with value `n`, `none` if the conversion raises
(NaN, infinity, a non-numeric object, ...). -/
abbrev PyVal := Option Int

/-- `self.max_diff = 50` (fc_handler.py line 84): slew-rate limit per cycle. -/
def max_diff : Int := 50

/-- `self.max_command = 1950` (fc_handler.py line 85). -/
def max_command : Int := 1950

/-- `self.min_command = 900` (fc_handler.py line 86). -/
def min_command : Int := 900

/-- The first stage of `_fc_protector` (fc_handler.py lines 257-264,
"First, make sure the jump isn't too big"): if the new value differs from
the old by more than `max_diff`, move `max_diff` from the old value towards
the new one. -/
def slew_limit (cv old : Int) : Int :=
  if max_diff < ((cv - old).natAbs : Int) then
    if cv < old then old - max_diff
    else if old < cv then old + max_diff
    else cv
  else cv

/-- The second stage of `_fc_protector` (fc_handler.py lines 266-272, "then
make sure its within the max-min command range"): clamp to
`[min_command, max_command]`. -/
def clamp_cmd (cv : Int) : Int :=
  if max_command < cv then max_command
  else if cv < min_command then min_command
  else cv

/-- `FlightControllerInterface._fc_protector` (fc_handler.py lines 251-278).
Slew-limits the new value against the old one, then clamps to
`[min_command, max_command]`; any failure of the `int()` conversions or the
arithmetic (the `except` branch, lines 274-278) yields the neutral value
1500.  The old value is always an integer already (initial command values
and previous outputs of this function), so only the new value carries the
`Option`. -/
def fc_protector (control_value : PyVal) (old_value : Int) : Int :=
  match control_value with
  | none => 1500
  | some cv0 => clamp_cmd (slew_limit cv0 old_value)

/-- The driver-local command dictionary `self.CMDS` (fc_handler.py lines
41-48).  The four analog channels are integers (their initial values are
integer literals and `_fc_protector` returns integers); the aux channels are
written through from the incoming batch unchanged, so they keep the raw
value type. -/
structure CMDS where
  roll : Int
  pitch : Int
  throttle : Int
  yaw : Int
  aux1 : PyVal
  aux2 : PyVal
deriving DecidableEq

/-- The initial command dictionary (fc_handler.py lines 41-48):
roll/pitch/yaw centered at 1500, throttle at 900, aux1 = 1000 (disarm),
aux2 = 1500 (horizon mode). -/
def init_CMDS : CMDS :=
  { roll := 1500, pitch := 1500, throttle := 900, yaw := 1500,
    aux1 := some 1000, aux2 := some 1500 }

/-- `FlightControllerInterface._process_cmds` (fc_handler.py lines 224-249).
The incoming batch is a six-entry array `commands[0..5]`.  Entries 0-3
(roll, pitch, throttle, yaw) are passed through `_fc_protector` against the
previous value in `CMDS`; entries 4 and 5 (aux1, aux2) are written into
`CMDS` exactly as received. -/
def process_cmds (c : CMDS) (commands : Fin 6 → PyVal) : CMDS :=
  { roll := fc_protector (commands 0) c.roll,
    pitch := fc_protector (commands 1) c.pitch,
    throttle := fc_protector (commands 2) c.throttle,
    yaw := fc_protector (commands 3) c.yaw,
    aux1 := commands 4,
    aux2 := commands 5 }

/-- Modelled from the spec: the `SharedState` blackboard fields the driver
touches (spec sections 3 and 6; the accessor module
`lib.shared_data_management` is not part of the sources).  `set_safety` is a
plain last-writer-wins scalar write.  `safetyWrites` is a ghost trace
recording the sequence of safety-code writes, so that write ordering is
observable in theorems. -/
structure Shared where
  safety : Int
  board_connected : Int
  battery_voltage : ℚ
  battery_power : ℚ
  low_voltage_warning : Bool
  safetyWrites : List Int
deriving DecidableEq

/-- Modelled from the spec: `set_safety(code)` writes the shared safety
scalar, last-writer-wins (spec sections 3 and 6). -/
def set_safety (code : Int) (sh : Shared) : Shared :=
  { sh with safety := code, safetyWrites := sh.safetyWrites ++ [code] }

/-- Modelled from the spec: `get_safety()` reads the shared safety scalar
(spec section 6). -/
def get_safety (sh : Shared) : Int := sh.safety

/-- Modelled from the spec: `set_board_connected(flag)` (spec section 6). -/
def set_board_connected (flag : Int) (sh : Shared) : Shared :=
  { sh with board_connected := flag }

/-- Modelled from the spec: `set_battery_voltage(v)` (spec section 6). -/
def set_battery_voltage (v : ℚ) (sh : Shared) : Shared :=
  { sh with battery_voltage := v }

/-- Modelled from the spec: `set_battery_power(p)` (spec section 6). -/
def set_battery_power (p : ℚ) (sh : Shared) : Shared :=
  { sh with battery_power := p }

/-- Modelled from the spec: `set_low_voltage_warning()`, a sticky one-shot
flag (spec section 6). -/
def set_low_voltage_warning (sh : Shared) : Shared :=
  { sh with low_voltage_warning := true }

/-- A shared state before the driver has written anything. -/
def init_shared : Shared :=
  { safety := 0, board_connected := 0, battery_voltage := -1,
    battery_power := 0, low_voltage_warning := false, safetyWrites := [] }

/-- Observable side effects of the driver worker: a hardware reboot
(`board.reboot()`), a message on the supervisor pipe
(`bootloader_pipe_connection.send`, either a plain string or the structured
fault log list), a `time.sleep`, and an RC command frame pushed to the board
(`board.send_RAW_RC`). -/
inductive Event where
  | reboot : Event
  | send : String → Event
  | sendLog : List String → Event
  | sleep : ℚ → Event
  | sendRC : List PyVal → Event
deriving DecidableEq

/-- The safety-code check at the top of the Operating loop (fc_handler.py
lines 149-158).  If the shared safety code reads 1 (emergency stop) or 2
(shutdown): reboot the board, report the numeric code on the supervisor
pipe, sleep 0.5 s, write safety 0 and then 5, and return from `run` —
modelled as `some (finalShared, events)`.  Otherwise the loop continues —
modelled as `none`. -/
def emergency_check (sh : Shared) : Option (Shared × List Event) :=
  if get_safety sh = 1 ∨ get_safety sh = 2 then
    let evs := [Event.reboot,
      Event.send ("The flight controller has responded to an emergency stop code "
        ++ toString (get_safety sh) ++ ". The board has been reset."),
      Event.sleep (mkRat 1 2)]
    let sh1 := set_safety 0 sh
    let sh2 := set_safety 5 sh1
    some (sh2, evs)
  else none

/-- The command dictionary as written by every iteration of `initial_cmds`
(fc_handler.py lines 288-300): aux1 = 1000 (disarm), aux2 = 1500,
throttle = 900, roll = pitch = yaw = 1500. -/
def warm_CMDS : CMDS :=
  { roll := 1500, pitch := 1500, throttle := 900, yaw := 1500,
    aux1 := some 1000, aux2 := some 1500 }

/-- The RC frame `[self.CMDS[ki] for ki in self.CMDS_ORDER]` with
`CMDS_ORDER = [roll, pitch, throttle, yaw, aux1, aux2]` (fc_handler.py
lines 63, 169, 304). -/
def cmds_frame (c : CMDS) : List PyVal :=
  [some c.roll, some c.pitch, some c.throttle, some c.yaw, c.aux1, c.aux2]

/-- The disarmed, centered warm-up frame in AETR + aux order. -/
def disarm_frame : List PyVal :=
  [some 1500, some 1500, some 900, some 1500, some 1000, some 1500]

/-- `FlightControllerInterface.initial_cmds` (fc_handler.py lines 281-306):
a timed loop; `iters` is the number of iterations that fit in the
configured duration.  Every iteration overwrites `CMDS` with the disarmed,
centered values and pushes the resulting frame to the board. -/
def initial_cmds : Nat → CMDS → CMDS × List Event
  | 0, c => (c, [])
  | Nat.succ n, _ =>
    ((initial_cmds n warm_CMDS).1,
     Event.sendRC (cmds_frame warm_CMDS) :: (initial_cmds n warm_CMDS).2)

/-- The warm-up duration passed at the call site
`self.initial_cmds(5, board)` (fc_handler.py line 129), in seconds. -/
def warmup_secs : Nat := 5

/-- The warm-up phase of `run` (fc_handler.py lines 126-132): write safety
code 5, run `initial_cmds` for the configured duration, then re-read the
safety code and reset it to 0 only if it still reads exactly 5.  Because
other workers run concurrently, the value observed by the re-read is a
parameter `s_end` (equal to 5 when nobody interfered). -/
def run_warmup (iters : Nat) (s_end : Int) (c : CMDS) (sh : Shared) :
    CMDS × Shared × List Event :=
  let sh1 := set_safety 5 sh
  let sh2 := { sh1 with safety := s_end }
  let sh3 := if get_safety sh2 = 5 then set_safety 0 sh2 else sh2
  ((initial_cmds iters c).1, sh3, (initial_cmds iters c).2)

/-- `self.low_voltage_threshold = 6.4` Volts (fc_handler.py line 79). -/
def low_voltage_threshold : ℚ := 32/5

/-- `self.low_voltage_threshold_timer = 3` seconds (fc_handler.py line 80). -/
def low_voltage_threshold_timer : ℚ := 3

/-- The low-voltage watchdog run on each battery-telemetry sample
(fc_handler.py lines 196-207).  `t` is the sample time
(`self.last_slow_msg_time`), `v` the voltage, `last_above` the driver-local
`self.last_time_above_threshold`.  Returns the new `last_above`, the new
shared state, and whether the escalation fired (safety set to 4, warning
message sent, sticky warning flag raised). -/
def battery_check (t v : ℚ) (last_above : ℚ) (sh : Shared) :
    ℚ × Shared × Bool :=
  if v < low_voltage_threshold then
    if low_voltage_threshold_timer ≤ t - last_above then
      (last_above, set_low_voltage_warning (set_safety 4 sh), true)
    else (last_above, sh, false)
  else (t, sh, false)

/-- Runs `battery_check` over a sequence of `(time, voltage)` samples,
collecting the per-sample escalation flags. -/
def battery_run (samples : List (ℚ × ℚ)) (last_above : ℚ) (sh : Shared) :
    ℚ × Shared × List Bool :=
  match samples with
  | [] => (last_above, sh, [])
  | (t, v) :: rest =>
    let (la1, sh1, fired) := battery_check t v last_above sh
    let (la2, sh2, fs) := battery_run rest la1 sh1
    (la2, sh2, fired :: fs)

/-- A Python exception as the `except` handler of `run` sees it: class
name, message, and extracted traceback lines (fc_handler.py lines
208-216). -/
structure PyErr where
  name : String
  msg : String
  trace : List String
deriving DecidableEq

/-- The fault report built by the `except` handler of `run` (fc_handler.py
lines 211-216): the fixed header, the traceback lines, the exception class
name and the exception message.  (In the source the last two entries are
singleton lists; the report is flattened here.) -/
def format_fault (e : PyErr) : List String :=
  "an error occurred" :: (e.trace ++ [e.name, e.msg])

/-- The entry of `run` up to the hardware-link open, together with the
`except` handler (fc_handler.py lines 96-110 and 208-218).  `connect` is
the outcome of `MSPy(...)`: `Except.error e` if opening the link raises
`e`.  Returns the shared state, the pipe events, and `true` when `run`
returned (failure path) or `false` when it proceeds into the connected
body. -/
def run_connect (connect : Except PyErr Unit) (sh : Shared) :
    Shared × List Event × Bool :=
  let ev0 := Event.send "fc handler trying to connect"
  match connect with
  | Except.error e => (sh, [ev0, Event.sendLog (format_fault e)], true)
  | Except.ok _ => (set_board_connected 1 sh, [ev0], false)

/-- A `multiprocessing.Process` handle as the supervisor sees it: its
`name`, whether `start()` has been called, and whether the underlying OS
process is alive (`is_alive()`; `false` for a never-started process). -/
structure Proc where
  name : String
  started : Bool
  alive : Bool
deriving DecidableEq

/-- `multiprocessing.Process.start()`: may be called at most once per
process object; a second call raises (stdlib behaviour, cannot start a
process twice). -/
def Proc.start (p : Proc) : Except String Proc :=
  if p.started then Except.error "cannot start a process twice"
  else Except.ok { name := p.name, started := true, alive := true }

/-- `terminate()` followed by `join()`: the process ends up not alive. -/
def Proc.terminate_join (p : Proc) : Proc :=
  { p with alive := false }

/-- A worker object held in `self.objects` (bootloader.py line 234).  Its
`exit()` hook may raise (`exitRaises`); which workers actually raise is
unknown, so it is left arbitrary. -/
structure WObj where
  name : String
  exitRaises : Bool
deriving DecidableEq

/-- The `exit()` hook of a worker object. -/
def WObj.exit_hook (o : WObj) : Except String Unit :=
  if o.exitRaises then Except.error "exit hook failed" else Except.ok ()

/-- `ProcessManager` state (bootloader.py lines 166-176, 222):
`processes`, `objects` and `pipes` bookkeeping, plus the
`user_code_process` attribute which is only set once `make_processes` has
run (`none` models the attribute being absent, so `hasattr` is `isSome`).
In the source `user_code_process` aliases the list entry named
`user code handler`; operations here update both in step. -/
structure PM where
  processes : List Proc
  objects : List WObj
  pipes : List String
  user_code_process : Option Proc
deriving DecidableEq

/-- A `ProcessManager` right after `__init__` (bootloader.py lines
166-176): empty bookkeeping, `user_code_process` attribute not set. -/
def pm_init : PM :=
  { processes := [], objects := [], pipes := [], user_code_process := none }

/-- The worker name list of `make_processes` (bootloader.py lines
191-198). -/
def name_list : List String :=
  ["localizer", "fc handler", "control manager", "user code handler",
   "sender", "receiver"]

/-- A freshly created, not yet started process handle. -/
def fresh_proc (n : String) : Proc :=
  { name := n, started := false, alive := false }

/-- `ProcessManager.make_processes` (bootloader.py lines 189-236): for each
name, create a pipe, a worker object and a process, record all three; the
process named `user code handler` is additionally stored in
`self.user_code_process` (line 222). -/
def make_processes (pm : PM) : PM :=
  { pm with
    processes := pm.processes ++ name_list.map fresh_proc,
    objects := pm.objects ++ name_list.map (fun n => { name := n, exitRaises := false }),
    pipes := pm.pipes ++ name_list,
    user_code_process := some (fresh_proc "user code handler") }

/-- The start loop of `startup` (bootloader.py lines 185-187): start every
process whose name is not `user code handler`.  A raising `start()` would
propagate, hence the `Except`. -/
def start_non_user : List Proc → Except String (List Proc)
  | [] => Except.ok []
  | p :: rest =>
    if p.name = "user code handler" then
      match start_non_user rest with
      | Except.error e => Except.error e
      | Except.ok rs => Except.ok (p :: rs)
    else
      match p.start with
      | Except.error e => Except.error e
      | Except.ok pStarted =>
        match start_non_user rest with
        | Except.error e => Except.error e
        | Except.ok rs => Except.ok (pStarted :: rs)

/-- `ProcessManager.startup` (bootloader.py lines 181-187): create all
processes, then start all of them except the user-code worker. -/
def startup (pm : PM) : Except String PM :=
  let pm1 := make_processes pm
  match start_non_user pm1.processes with
  | Except.error e => Except.error e
  | Except.ok ps => Except.ok { pm1 with processes := ps }

/-- `ProcessManager.kick_off_user_code` (bootloader.py lines 256-261): if
the `user_code_process` attribute exists, call `start()` on it (updating
the aliased list entry as well) and return `true`; otherwise return
`false`.  An exception from `start()` propagates to the caller. -/
def kick_off_user_code (pm : PM) : Except String (PM × Bool) :=
  match pm.user_code_process with
  | some p =>
    match p.start with
    | Except.error e => Except.error e
    | Except.ok pStarted =>
      Except.ok ({ pm with
        user_code_process := some pStarted,
        processes := pm.processes.map
          (fun q => if q.name = "user code handler" then pStarted else q) },
        true)
  | none => Except.ok (pm, false)

/-- The exit-hook loop of `kill_all` (bootloader.py lines 240-244): call
every worker object's `exit()` inside `try ... except: pass`, so a raising
hook is swallowed and the loop continues. -/
def run_exits : List WObj → Unit
  | [] => ()
  | o :: rest =>
    match o.exit_hook with
    | Except.ok _ => run_exits rest
    | Except.error _ => run_exits rest

/-- The termination loop of `kill_all` (bootloader.py lines 247-250):
terminate and join every still-alive process; never-started or already-dead
processes are skipped by the `is_alive()` guard. -/
def terminate_all (ps : List Proc) : List Proc :=
  ps.map (fun p => if p.alive then p.terminate_join else p)

/-- `ProcessManager.kill_all` (bootloader.py lines 238-254): run every exit
hook with errors swallowed, terminate every still-alive process, then clear
`processes`, `objects` and `pipes`.  The `user_code_process` attribute is
not deleted; its aliased handle reflects the termination.  The second
component returns the final states of the process handles that were in the
bookkeeping, so liveness after teardown is observable. -/
def kill_all (pm : PM) : PM × List Proc :=
  let _ := run_exits pm.objects
  let killed := terminate_all pm.processes
  ({ processes := [], objects := [], pipes := [],
     user_code_process := pm.user_code_process.map
       (fun p => if p.alive then p.terminate_join else p) },
   killed)

/-- `startup` followed by a first `kick_off_user_code`. -/
def first_kick (pm : PM) : Except String (PM × Bool) :=
  match startup pm with
  | Except.error e => Except.error e
  | Except.ok pm1 => kick_off_user_code pm1

/-- `startup` followed by two calls of `kick_off_user_code` in a row. -/
def second_kick (pm : PM) : Except String (PM × Bool) :=
  match first_kick pm with
  | Except.error e => Except.error e
  | Except.ok (pm2, _) => kick_off_user_code pm2

/-- An incoming command batch whose throttle entry (index 2) is a value on
which `int()` fails (e.g. NaN); the other entries are ordinary centered
values. -/
def nan_batch : Fin 6 → PyVal :=
  fun i => if i = 2 then none else some 1500

/-- An incoming command batch with all four analog entries failing
conversion. -/
def none_batch : Fin 6 → PyVal :=
  fun _ => none

/-- An incoming command batch whose aux entries (indices 4 and 5) lie far
outside `[min_command, max_command]`. -/
def aux_batch : Fin 6 → PyVal :=
  fun i => if i = 4 then some 3000 else if i = 5 then some 50 else some 1500

/-- The expected `ProcessManager` state right after `startup` from a fresh
manager: every worker process started except the user-code one. -/
def pm_up : PM :=
  { processes :=
      [{ name := "localizer", started := true, alive := true },
       { name := "fc handler", started := true, alive := true },
       { name := "control manager", started := true, alive := true },
       { name := "user code handler", started := false, alive := false },
       { name := "sender", started := true, alive := true },
       { name := "receiver", started := true, alive := true }],
    objects := name_list.map (fun n => { name := n, exitRaises := false }),
    pipes := name_list,
    user_code_process := some (fresh_proc "user code handler") }

/-- The expected `ProcessManager` state after `startup` and one
`kick_off_user_code`: every worker process started. -/
def pm_kicked : PM :=
  { processes :=
      [{ name := "localizer", started := true, alive := true },
       { name := "fc handler", started := true, alive := true },
       { name := "control manager", started := true, alive := true },
       { name := "user code handler", started := true, alive := true },
       { name := "sender", started := true, alive := true },
       { name := "receiver", started := true, alive := true }],
    objects := name_list.map (fun n => { name := n, exitRaises := false }),
    pipes := name_list,
    user_code_process :=
      some { name := "user code handler", started := true, alive := true } }

/-- The slew stage never moves the result more than `max_diff` from the old
value. -/
theorem slew_limit_close (cv old : Int) :
    ((slew_limit cv old) - old).natAbs ≤ 50 := by
  unfold slew_limit max_diff
  split_ifs <;> omega

/-- The clamp stage always lands in `[min_command, max_command]`. -/
theorem clamp_cmd_range (cv : Int) :
    min_command ≤ clamp_cmd cv ∧ clamp_cmd cv ≤ max_command := by
  unfold clamp_cmd min_command max_command
  split_ifs <;> omega

/-- Clamping a value towards `[min_command, max_command]` does not move it
further from an old value that already lies in that interval. -/
theorem clamp_cmd_close (cv old : Int) (h1 : min_command ≤ old)
    (h2 : old ≤ max_command) :
    (clamp_cmd cv - old).natAbs ≤ (cv - old).natAbs := by
  unfold clamp_cmd
  unfold min_command max_command at *
  split_ifs <;> omega

/-- The bounded value always lies in `[min_command, max_command]`,
whatever the input (the neutral fallback 1500 included). -/
theorem fc_protector_range (v : PyVal) (old : Int) :
    min_command ≤ fc_protector v old ∧ fc_protector v old ≤ max_command := by
  cases v with
  | none =>
    have h : fc_protector none old = 1500 := rfl
    rw [h]; unfold min_command max_command; omega
  | some n => exact clamp_cmd_range (slew_limit n old)

/-- When the conversion succeeds and the old value is already in range, the
bounded value moves at most 50 units from the old one. -/
theorem fc_protector_slew (n old : Int) (h1 : min_command ≤ old)
    (h2 : old ≤ max_command) :
    (fc_protector (some n) old - old).natAbs ≤ 50 := by
  have hclose := clamp_cmd_close (slew_limit n old) old h1 h2
  have hslew := slew_limit_close n old
  calc (fc_protector (some n) old - old).natAbs
      = (clamp_cmd (slew_limit n old) - old).natAbs := rfl
    _ ≤ (slew_limit n old - old).natAbs := hclose
    _ ≤ 50 := hslew

/-- On conversion failure the bounded value is the neutral 1500. -/
theorem fc_protector_none (old : Int) : fc_protector none old = 1500 := rfl

/-- The event trace of `initial_cmds` is one disarmed, centered frame per
iteration. -/
theorem initial_cmds_frames (n : Nat) (c : CMDS) :
    (initial_cmds n c).2 = List.replicate n (Event.sendRC disarm_frame) := by
  induction n generalizing c with
  | zero => rfl
  | succ m ih =>
    simp only [initial_cmds, List.replicate]
    rw [ih warm_CMDS]
    rfl

/-- After the termination loop of `kill_all`, no process handle that was in
the bookkeeping is alive. -/
theorem terminate_all_dead (ps : List Proc) :
    ((terminate_all ps).all fun p => !p.alive) = true := by
  induction ps with
  | nil => rfl
  | cons p rest ih =>
    simp only [terminate_all, List.map_cons, List.all_cons] at ih ⊢
    rw [ih, Bool.and_true]
    cases hp : p.alive
    · simp [hp]
    · simp [Proc.terminate_join]

/-- C1 (counterexample): the claim that after bounding every analog channel
differs from its previous bounded value by at most 50 "regardless of input"
fails: with the initial command dictionary (throttle 900, in range) and a
batch whose throttle entry fails integer conversion, `_process_cmds` stores
the neutral 1500, which is 600 away from the previous value. -/
theorem bounding_slew_counterexample :
    min_command ≤ init_CMDS.throttle ∧ init_CMDS.throttle ≤ max_command ∧
    (process_cmds init_CMDS nan_batch).throttle = 1500 ∧
    50 < ((process_cmds init_CMDS nan_batch).throttle - init_CMDS.throttle).natAbs := by
  decide

/-- C1 (amended): for every externally supplied command batch, after
`_process_cmds` every analog channel lies in `[min_command, max_command]`;
each analog channel whose batch entry converts to an integer moreover
differs from its previous (already bounded) value by at most 50, and a
channel whose entry fails conversion is set to the neutral 1500 (in range,
but possibly further than 50 from the previous value). -/
theorem bounding_range_slew_neutral (c : CMDS) (b : Fin 6 → PyVal)
    (h1 : min_command ≤ c.roll) (h2 : c.roll ≤ max_command)
    (h3 : min_command ≤ c.pitch) (h4 : c.pitch ≤ max_command)
    (h5 : min_command ≤ c.throttle) (h6 : c.throttle ≤ max_command)
    (h7 : min_command ≤ c.yaw) (h8 : c.yaw ≤ max_command) :
    (min_command ≤ (process_cmds c b).roll ∧ (process_cmds c b).roll ≤ max_command) ∧
    (min_command ≤ (process_cmds c b).pitch ∧ (process_cmds c b).pitch ≤ max_command) ∧
    (min_command ≤ (process_cmds c b).throttle ∧ (process_cmds c b).throttle ≤ max_command) ∧
    (min_command ≤ (process_cmds c b).yaw ∧ (process_cmds c b).yaw ≤ max_command) ∧
    (∀ n, b 0 = some n → ((process_cmds c b).roll - c.roll).natAbs ≤ 50) ∧
    (∀ n, b 1 = some n → ((process_cmds c b).pitch - c.pitch).natAbs ≤ 50) ∧
    (∀ n, b 2 = some n → ((process_cmds c b).throttle - c.throttle).natAbs ≤ 50) ∧
    (∀ n, b 3 = some n → ((process_cmds c b).yaw - c.yaw).natAbs ≤ 50) ∧
    (b 0 = none → (process_cmds c b).roll = 1500) ∧
    (b 1 = none → (process_cmds c b).pitch = 1500) ∧
    (b 2 = none → (process_cmds c b).throttle = 1500) ∧
    (b 3 = none → (process_cmds c b).yaw = 1500) := by
  refine ⟨fc_protector_range _ _, fc_protector_range _ _, fc_protector_range _ _,
    fc_protector_range _ _, ?_, ?_, ?_, ?_, ?_, ?_, ?_, ?_⟩
  · intro n hn
    show (fc_protector (b 0) c.roll - c.roll).natAbs ≤ 50
    rw [hn]; exact fc_protector_slew n c.roll h1 h2
  · intro n hn
    show (fc_protector (b 1) c.pitch - c.pitch).natAbs ≤ 50
    rw [hn]; exact fc_protector_slew n c.pitch h3 h4
  · intro n hn
    show (fc_protector (b 2) c.throttle - c.throttle).natAbs ≤ 50
    rw [hn]; exact fc_protector_slew n c.throttle h5 h6
  · intro n hn
    show (fc_protector (b 3) c.yaw - c.yaw).natAbs ≤ 50
    rw [hn]; exact fc_protector_slew n c.yaw h7 h8
  · intro hn
    show fc_protector (b 0) c.roll = 1500
    rw [hn]
    exact fc_protector_none c.roll
  · intro hn
    show fc_protector (b 1) c.pitch = 1500
    rw [hn]
    exact fc_protector_none c.pitch
  · intro hn
    show fc_protector (b 2) c.throttle = 1500
    rw [hn]
    exact fc_protector_none c.throttle
  · intro hn
    show fc_protector (b 3) c.yaw = 1500
    rw [hn]
    exact fc_protector_none c.yaw

/-- C1 (witness): the amended bounding theorem applied to the initial
command dictionary and the batch with a failing throttle entry. -/
theorem bounding_range_slew_neutral_witness :
    (min_command ≤ init_CMDS.roll ∧ init_CMDS.roll ≤ max_command ∧
     min_command ≤ init_CMDS.pitch ∧ init_CMDS.pitch ≤ max_command ∧
     min_command ≤ init_CMDS.throttle ∧ init_CMDS.throttle ≤ max_command ∧
     min_command ≤ init_CMDS.yaw ∧ init_CMDS.yaw ≤ max_command) ∧
    ((min_command ≤ (process_cmds init_CMDS nan_batch).roll ∧
        (process_cmds init_CMDS nan_batch).roll ≤ max_command) ∧
     (min_command ≤ (process_cmds init_CMDS nan_batch).pitch ∧
        (process_cmds init_CMDS nan_batch).pitch ≤ max_command) ∧
     (min_command ≤ (process_cmds init_CMDS nan_batch).throttle ∧
        (process_cmds init_CMDS nan_batch).throttle ≤ max_command) ∧
     (min_command ≤ (process_cmds init_CMDS nan_batch).yaw ∧
        (process_cmds init_CMDS nan_batch).yaw ≤ max_command) ∧
     (∀ n, nan_batch 0 = some n →
        ((process_cmds init_CMDS nan_batch).roll - init_CMDS.roll).natAbs ≤ 50) ∧
     (∀ n, nan_batch 1 = some n →
        ((process_cmds init_CMDS nan_batch).pitch - init_CMDS.pitch).natAbs ≤ 50) ∧
     (∀ n, nan_batch 2 = some n →
        ((process_cmds init_CMDS nan_batch).throttle - init_CMDS.throttle).natAbs ≤ 50) ∧
     (∀ n, nan_batch 3 = some n →
        ((process_cmds init_CMDS nan_batch).yaw - init_CMDS.yaw).natAbs ≤ 50) ∧
     (nan_batch 0 = none → (process_cmds init_CMDS nan_batch).roll = 1500) ∧
     (nan_batch 1 = none → (process_cmds init_CMDS nan_batch).pitch = 1500) ∧
     (nan_batch 2 = none → (process_cmds init_CMDS nan_batch).throttle = 1500) ∧
     (nan_batch 3 = none → (process_cmds init_CMDS nan_batch).yaw = 1500)) :=
  ⟨by decide,
   bounding_range_slew_neutral init_CMDS nan_batch (by decide) (by decide)
     (by decide) (by decide) (by decide) (by decide) (by decide) (by decide)⟩

/-- C2: whenever the Operating loop reads a safety code of 1 (emergency
stop) or 2 (shutdown), the driver reboots the board, reports the numeric
code on the supervisor pipe, sleeps the fixed 0.5 s settle time, writes
safety 0 and then immediately 5, and exits the loop, so the safety code
equals 5 when the worker returns. -/
theorem emergency_exit_connecting (sh : Shared)
    (h : get_safety sh = 1 ∨ get_safety sh = 2) :
    emergency_check sh =
      some (set_safety 5 (set_safety 0 sh),
        [Event.reboot,
         Event.send ("The flight controller has responded to an emergency stop code "
           ++ toString (get_safety sh) ++ ". The board has been reset."),
         Event.sleep (mkRat 1 2)]) ∧
    get_safety (set_safety 5 (set_safety 0 sh)) = 5 ∧
    (set_safety 5 (set_safety 0 sh)).safetyWrites = sh.safetyWrites ++ [0, 5] := by
  refine ⟨?_, rfl, ?_⟩
  · unfold emergency_check
    rw [if_pos h]
  · simp [set_safety]

/-- C2 (witness): the emergency-exit theorem applied to a shared state
whose safety code reads 1. -/
theorem emergency_exit_connecting_witness :
    (get_safety (set_safety 1 init_shared) = 1 ∨
      get_safety (set_safety 1 init_shared) = 2) ∧
    (emergency_check (set_safety 1 init_shared) =
      some (set_safety 5 (set_safety 0 (set_safety 1 init_shared)),
        [Event.reboot,
         Event.send ("The flight controller has responded to an emergency stop code "
           ++ toString (get_safety (set_safety 1 init_shared)) ++ ". The board has been reset."),
         Event.sleep (mkRat 1 2)]) ∧
     get_safety (set_safety 5 (set_safety 0 (set_safety 1 init_shared))) = 5 ∧
     (set_safety 5 (set_safety 0 (set_safety 1 init_shared))).safetyWrites =
       (set_safety 1 init_shared).safetyWrites ++ [0, 5]) :=
  ⟨Or.inl rfl, emergency_exit_connecting (set_safety 1 init_shared) (Or.inl rfl)⟩

/-- C3: warm-up first writes safety code 5, then transmits exactly one
disarmed, centered frame per iteration for the configured duration (the
call site passes 5 seconds); at the end it writes 0 if and only if the
re-read safety code is still exactly 5, and otherwise leaves the value
alone. -/
theorem warmup_disarm_and_reset (iters : Nat) (s_end : Int) (c : CMDS) (sh : Shared) :
    (run_warmup iters s_end c sh).2.2 =
      List.replicate iters (Event.sendRC disarm_frame) ∧
    (run_warmup iters s_end c sh).2.1.safetyWrites =
      (sh.safetyWrites ++ [5]) ++ (if s_end = 5 then [0] else []) ∧
    get_safety (run_warmup iters s_end c sh).2.1 =
      (if s_end = 5 then 0 else s_end) ∧
    warmup_secs = 5 := by
  refine ⟨initial_cmds_frames iters c, ?_, ?_, rfl⟩
  · unfold run_warmup
    by_cases hs : s_end = 5 <;> simp [hs, set_safety, get_safety]
  · unfold run_warmup
    by_cases hs : s_end = 5 <;> simp [hs, set_safety, get_safety]

/-- C4: a voltage sample below the threshold escalates (safety 4, warning
message, sticky flag) exactly when at least the hysteresis window has
elapsed since the last at-or-above-threshold sample; an at-or-above
threshold sample refreshes the timestamp and never escalates.  On the
spec's worked sequence [6.5, 6.5, 6.3, 6.3, 6.3, 6.5] sampled once per
second from time 0 with threshold 6.4 and window 3 s, the escalation fires
exactly at the third consecutive 6.3 sample. -/
theorem low_voltage_hysteresis :
    (∀ (t v la : ℚ) (sh : Shared),
        ((battery_check t v la sh).2.2 = true ↔
          v < low_voltage_threshold ∧ low_voltage_threshold_timer ≤ t - la)) ∧
    (∀ (t v la : ℚ) (sh : Shared),
        v < low_voltage_threshold → low_voltage_threshold_timer ≤ t - la →
          (battery_check t v la sh).2.1 =
            set_low_voltage_warning (set_safety 4 sh) ∧
          (battery_check t v la sh).1 = la) ∧
    (∀ (t v la : ℚ) (sh : Shared),
        low_voltage_threshold ≤ v →
          (battery_check t v la sh).1 = t ∧
          (battery_check t v la sh).2.1 = sh ∧
          (battery_check t v la sh).2.2 = false) ∧
    (battery_run
        [(0, 13/2), (1, 13/2), (2, 63/10), (3, 63/10), (4, 63/10), (5, 13/2)]
        0 init_shared).2.2 = [false, false, false, false, true, false] := by
  refine ⟨?_, ?_, ?_, ?_⟩
  · intro t v la sh
    unfold battery_check
    split_ifs with hv ht <;> simp_all
  · intro t v la sh hv ht
    unfold battery_check
    rw [if_pos hv, if_pos ht]
    exact ⟨rfl, rfl⟩
  · intro t v la sh hv
    unfold battery_check
    rw [if_neg (not_lt.mpr hv)]
    exact ⟨rfl, rfl, rfl⟩
  · norm_num [battery_run, battery_check, low_voltage_threshold,
      low_voltage_threshold_timer]

/-- C4 (witness): the hysteresis theorem applied to the firing sample
(time 4, voltage 6.3, last above-threshold sample at time 1) and to an
above-threshold sample. -/
theorem low_voltage_hysteresis_witness :
    ((63 : ℚ)/10 < low_voltage_threshold ∧
      low_voltage_threshold_timer ≤ (4 : ℚ) - 1) ∧
    ((battery_check 4 (63/10) 1 init_shared).2.1 =
        set_low_voltage_warning (set_safety 4 init_shared) ∧
      (battery_check 4 (63/10) 1 init_shared).1 = 1) ∧
    low_voltage_threshold ≤ (13 : ℚ)/2 ∧
    ((battery_check 0 (13/2) 0 init_shared).1 = 0 ∧
      (battery_check 0 (13/2) 0 init_shared).2.1 = init_shared ∧
      (battery_check 0 (13/2) 0 init_shared).2.2 = false) :=
  ⟨⟨by norm_num [low_voltage_threshold],
    by norm_num [low_voltage_threshold_timer]⟩,
   low_voltage_hysteresis.2.1 4 (63/10) 1 init_shared
     (by norm_num [low_voltage_threshold])
     (by norm_num [low_voltage_threshold_timer]),
   by norm_num [low_voltage_threshold],
   low_voltage_hysteresis.2.2.1 0 (13/2) 0 init_shared
     (by norm_num [low_voltage_threshold])⟩

/-- C5 (counterexample): `kick_off_user_code` is not idempotent-once.  From
a fresh manager, `startup` then a first call starts the user-code worker
and succeeds, but a second call reaches `start()` again and raises (a
process may be started at most once) instead of returning without error. -/
theorem kick_off_second_call_raises :
    (first_kick pm_init).isOk = true ∧
    second_kick pm_init = Except.error "cannot start a process twice" :=
  ⟨by decide, rfl⟩

/-- C5 (amended): `startup` spawns all six workers and starts all but the
user-code worker; a first `kick_off_user_code` starts the user-code worker
and returns `true`, and when the user-code process was never created the
call returns `false` without starting anything; but a second call attempts
`start()` again and raises rather than being idempotent. -/
theorem startup_gates_user_code :
    startup pm_init = Except.ok pm_up ∧
    (pm_up.processes.all fun p =>
      p.started == !(p.name == "user code handler")) = true ∧
    pm_up.user_code_process = some (fresh_proc "user code handler") ∧
    first_kick pm_init = Except.ok (pm_kicked, true) ∧
    pm_kicked.user_code_process =
      some { name := "user code handler", started := true, alive := true } ∧
    second_kick pm_init = Except.error "cannot start a process twice" ∧
    ∀ pm : PM, pm.user_code_process = none →
      kick_off_user_code pm = Except.ok (pm, false) := by
  refine ⟨rfl, by decide, rfl, rfl, rfl, rfl, ?_⟩
  intro pm h
  unfold kick_off_user_code
  rw [h]

/-- C5 (witness): the gating theorem applied to a manager whose user-code
process attribute is absent. -/
theorem startup_gates_user_code_witness :
    pm_init.user_code_process = none ∧
    kick_off_user_code pm_init = Except.ok (pm_init, false) :=
  ⟨rfl, startup_gates_user_code.2.2.2.2.2.2 pm_init rfl⟩

/-- C6: `kill_all` swallows every exit-hook error (its outcome is
unchanged if every hook raises), leaves every process handle that was in
the bookkeeping dead, clears all bookkeeping, and a second call in a row
likewise raises nothing, terminates nothing further and leaves zero live
workers. -/
theorem teardown_idempotent_dead (pm : PM) :
    ((kill_all pm).2.all fun p => !p.alive) = true ∧
    (kill_all pm).1.processes = [] ∧
    (kill_all pm).1.objects = [] ∧
    (kill_all pm).1.pipes = [] ∧
    (kill_all ((kill_all pm).1)).2 = [] ∧
    (kill_all ((kill_all pm).1)).1.processes = [] ∧
    kill_all pm =
      kill_all { pm with
        objects := pm.objects.map fun o => { o with exitRaises := true } } :=
  ⟨terminate_all_dead pm.processes, rfl, rfl, rfl, rfl, rfl, rfl⟩

/-- C7: `_fc_protector` is total on every input value: a conversion or
arithmetic failure is recovered locally as the neutral value 1500 (never
propagated), and every returned value lies in the command envelope; inside
`_process_cmds` a failing analog entry therefore simply lands as 1500. -/
theorem fc_protector_neutral_recovery :
    (∀ (v : PyVal) (old : Int), v = none → fc_protector v old = 1500) ∧
    (∀ (v : PyVal) (old : Int),
        min_command ≤ fc_protector v old ∧ fc_protector v old ≤ max_command) ∧
    (∀ (c : CMDS) (b : Fin 6 → PyVal),
        (b 0 = none → (process_cmds c b).roll = 1500) ∧
        (b 1 = none → (process_cmds c b).pitch = 1500) ∧
        (b 2 = none → (process_cmds c b).throttle = 1500) ∧
        (b 3 = none → (process_cmds c b).yaw = 1500)) := by
  refine ⟨?_, fun v old => fc_protector_range v old, ?_⟩
  · intro v old h
    rw [h]
    exact fc_protector_none old
  · intro c b
    refine ⟨?_, ?_, ?_, ?_⟩
    · intro h
      show fc_protector (b 0) c.roll = 1500
      rw [h]
      exact fc_protector_none c.roll
    · intro h
      show fc_protector (b 1) c.pitch = 1500
      rw [h]
      exact fc_protector_none c.pitch
    · intro h
      show fc_protector (b 2) c.throttle = 1500
      rw [h]
      exact fc_protector_none c.throttle
    · intro h
      show fc_protector (b 3) c.yaw = 1500
      rw [h]
      exact fc_protector_none c.yaw

/-- C7 (witness): the recovery theorem applied to a failing value over the
initial throttle and to a batch all of whose analog entries fail. -/
theorem fc_protector_neutral_recovery_witness :
    ((none : PyVal) = none ∧ fc_protector none 900 = 1500) ∧
    (none_batch 2 = none ∧
      (process_cmds init_CMDS none_batch).throttle = 1500) :=
  ⟨⟨rfl, fc_protector_neutral_recovery.1 none 900 rfl⟩,
   ⟨rfl, (fc_protector_neutral_recovery.2.2 init_CMDS none_batch).2.2.1 rfl⟩⟩

/-- C8: the bounding function on the worked examples of the spec: with
max_diff 50 and envelope [900, 1950], new 2000 over old 1500 is
slew-limited to 1550; new 1502 over old 1500 passes through; a NaN input
falls back to the neutral 1500. -/
theorem fc_protector_worked_examples :
    fc_protector (some 2000) 1500 = 1550 ∧
    fc_protector (some 1502) 1500 = 1502 ∧
    fc_protector none 1500 = 1500 := by
  decide

/-- C9: `_process_cmds` writes the aux entries (indices 4 and 5) into the
live command dictionary exactly as received, with no slew-limiting and no
clamping — only the four analog entries go through `_fc_protector`; in
particular aux values far outside [900, 1950] pass through unchanged. -/
theorem aux_channels_pass_through (c : CMDS) (b : Fin 6 → PyVal) :
    (process_cmds c b).aux1 = b 4 ∧
    (process_cmds c b).aux2 = b 5 ∧
    (process_cmds c b).roll = fc_protector (b 0) c.roll ∧
    (process_cmds c b).pitch = fc_protector (b 1) c.pitch ∧
    (process_cmds c b).throttle = fc_protector (b 2) c.throttle ∧
    (process_cmds c b).yaw = fc_protector (b 3) c.yaw ∧
    (process_cmds init_CMDS aux_batch).aux1 = some 3000 ∧
    (process_cmds init_CMDS aux_batch).aux2 = some 50 :=
  ⟨rfl, rfl, rfl, rfl, rfl, rfl, rfl, rfl⟩

/-- C10: if opening the hardware link raises, `run` leaves the shared state
untouched (in particular the board-connected flag and the safety code),
sends the greeting and then the formatted fault report over the supervisor
pipe, and returns normally instead of propagating the exception. -/
theorem connect_failure_isolated (e : PyErr) (sh : Shared) :
    run_connect (Except.error e) sh =
      (sh, [Event.send "fc handler trying to connect",
            Event.sendLog ("an error occurred" :: (e.trace ++ [e.name, e.msg]))],
       true) ∧
    (run_connect (Except.error e) sh).1 = sh ∧
    get_safety (run_connect (Except.error e) sh).1 = get_safety sh ∧
    (run_connect (Except.error e) sh).1.board_connected = sh.board_connected :=
  ⟨rfl, rfl, rfl, rfl⟩

end QuadSwarm
